import Mathlib

/-!
Verification of `pkg/logsetup`.

A shallow embedding of `src/pkg/logsetup/logsetup.go` and of the example in
`src/cmd/main.go`.  The Go code is stateful: it reads and replaces the
process-wide default logger, opens a file and writes log entries.  That state
is made explicit as a `World` value which every effectful operation takes and
returns.

The collaborators (`log/slog`, `slog-multi`, `lumberjack`, `os`, `context`)
are modelled at their interface only: which handler is built over which writer
with which options, and which write reaches which writer.  Byte-level
encodings, timestamps and the rotation algorithm are outside the model.
-/

namespace Logsetup

/-! ## Severities (`slog.Level` is an `int`) -/

/-- The constant `slog.LevelDebug`. -/
def LevelDebug : Int := -4
/-- The constant `slog.LevelInfo`. -/
def LevelInfo : Int := 0
/-- The constant `slog.LevelWarn`. -/
def LevelWarn : Int := 4
/-- The constant `slog.LevelError`. -/
def LevelError : Int := 8

/-! ## Configuration (`logsetup.go`, lines 18-34) -/

/-- The anonymous struct type of the field `Config.FileRotation`. -/
structure FileRotation where
  FilePath : String
  MaxSize : Int
  MaxBackups : Int
  MaxAge : Int
  Compress : Bool
  deriving DecidableEq, Repr

/-- The struct `Config`. -/
structure Config where
  Level : Int
  ConsoleLevel : Int
  Format : String
  Output : String
  AddSource : Bool
  FileRotation : FileRotation
  deriving DecidableEq, Repr

/-! ## Writers, handlers, loggers -/

/-- The struct `lumberjack.Logger`, with the fields that `Init` sets. -/
structure LumberjackLogger where
  Filename : String
  MaxSize : Int
  MaxBackups : Int
  MaxAge : Int
  Compress : Bool
  deriving DecidableEq, Repr

/-- The `io.Writer` values that `Init` can hand to a handler. -/
inductive Writer where
  /-- The stream `os.Stdout`. -/
  | Stdout
  /-- The stream `os.Stderr`. -/
  | Stderr
  /-- An `*os.File` obtained from `os.OpenFile` on the given path. -/
  | File (path : String)
  /-- A rotating writer `*lumberjack.Logger`. -/
  | Rotate (l : LumberjackLogger)
  deriving DecidableEq, Repr

/-- The struct `slog.HandlerOptions`; `Level` is always set by `Init`. -/
structure HandlerOptions where
  AddSource : Bool
  Level : Int
  deriving DecidableEq, Repr

/-- How a handler encodes a record: `slog.NewJSONHandler`, `slog.NewTextHandler`,
or the built-in handler of a fresh process. -/
inductive Encoding where
  | JSON
  | Text
  | Std
  deriving DecidableEq, Repr

/-- A leaf handler: the value returned by `slog.NewJSONHandler` or
`slog.NewTextHandler`. -/
structure Sink where
  encoding : Encoding
  writer : Writer
  opts : HandlerOptions
  deriving DecidableEq, Repr

/-- The function `slog.NewJSONHandler`. -/
def NewJSONHandler (w : Writer) (opts : HandlerOptions) : Sink :=
  { encoding := Encoding.JSON, writer := w, opts := opts }

/-- The function `slog.NewTextHandler`. -/
def NewTextHandler (w : Writer) (opts : HandlerOptions) : Sink :=
  { encoding := Encoding.Text, writer := w, opts := opts }

/-- The `slog.Handler` values of this program: the built-in handler of a fresh
process, a single leaf handler, or a `slogmulti.Fanout` over leaf handlers (the
only handlers `Init` ever fans out). -/
inductive Handler where
  | Default
  | Single (s : Sink)
  | FanoutOf (hs : List Sink)
  deriving DecidableEq, Repr

/-- The function `slogmulti.Fanout`. -/
def Fanout (hs : List Sink) : Handler := Handler.FanoutOf hs

/-- The struct `slog.Logger`: a logger is its handler. -/
structure Logger where
  handler : Handler
  deriving DecidableEq, Repr

/-- The function `slog.New`. -/
def New (h : Handler) : Logger := { handler := h }

/-- A log record: severity, message and key/value arguments (the timestamp is
outside the model). -/
structure Record where
  Level : Int
  Message : String
  Args : List (String × String)
  deriving DecidableEq, Repr

/-- One entry as a handler hands it to its writer: the record, the encoding and
whether the call site is attached. -/
structure Entry where
  encoding : Encoding
  source : Bool
  record : Record
  deriving DecidableEq, Repr

/-! ## The world -/

/-- The flags of `os.OpenFile` that `Init` uses. -/
inductive OpenFlag where
  | O_APPEND
  | O_CREATE
  | O_WRONLY
  deriving DecidableEq, Repr

/-- An input/output effect that has happened. -/
inductive Effect where
  /-- A successful `os.OpenFile(name, flag, perm)`. -/
  | opened (name : String) (flag : List OpenFlag) (perm : Nat)
  /-- One entry written to a writer. -/
  | write (w : Writer) (e : Entry)
  deriving DecidableEq, Repr

/-- The state outside `Init`: the process-wide default logger (`slog.Default()`),
the file system (`openErr p` is the error the operating system gives for opening
`p`, if any; `files` are the paths that exist), and the effects so far, oldest
first. -/
structure World where
  defaultLogger : Logger
  openErr : String → Option String
  files : List String
  trace : List Effect

/-- A process that has just started, on a file system where every open succeeds
and no log file exists yet. -/
def World.fresh : World :=
  { defaultLogger := New Handler.Default, openErr := fun _ => none, files := [], trace := [] }

/-- The entries written so far to a given writer, oldest first. -/
def World.entriesAt (w : World) (dst : Writer) : List Entry :=
  w.trace.filterMap fun e =>
    match e with
    | Effect.write d x => if d = dst then some x else none
    | Effect.opened _ _ _ => none

/-- The function `os.OpenFile`: fails with the operating system's error, or when
the file is absent and `O_CREATE` is not given; otherwise yields the file,
creating it when absent. -/
def OpenFile (name : String) (flag : List OpenFlag) (perm : Nat) (w : World) :
    Except String Writer × World :=
  match w.openErr name with
  | some e => (Except.error e, w)
  | none =>
    if name ∈ w.files then
      (Except.ok (Writer.File name), { w with trace := w.trace ++ [Effect.opened name flag perm] })
    else if OpenFlag.O_CREATE ∈ flag then
      (Except.ok (Writer.File name),
        { w with files := w.files ++ [name],
                 trace := w.trace ++ [Effect.opened name flag perm] })
    else
      (Except.error ("open " ++ name ++ ": no such file or directory"), w)

/-- The method `Enabled` of a leaf handler: `level >= minLevel`. -/
def Sink.Enabled (s : Sink) (level : Int) : Bool := decide (s.opts.Level ≤ level)

/-- The method `Handle` of a leaf handler: one entry goes to the writer. -/
def Sink.Handle (s : Sink) (r : Record) (w : World) : World :=
  { w with trace := w.trace ++
      [Effect.write s.writer { encoding := s.encoding, source := s.opts.AddSource, record := r }] }

/-- The method `Enabled`: the built-in handler accepts from `Info` on, a fan-out
accepts what any member accepts. -/
def Handler.Enabled : Handler → Int → Bool
  | Handler.Default, level => decide (LevelInfo ≤ level)
  | Handler.Single s, level => s.Enabled level
  | Handler.FanoutOf hs, level => hs.any fun s => s.Enabled level

/-- The method `Handle`: a fan-out offers the record to each member in order, and
a member handles it only if that member is enabled for the record's level. -/
def Handler.Handle : Handler → Record → World → World
  | Handler.Default, r, w =>
    { w with trace := w.trace ++
        [Effect.write Writer.Stderr { encoding := Encoding.Std, source := false, record := r }] }
  | Handler.Single s, r, w => s.Handle r w
  | Handler.FanoutOf hs, r, w =>
    hs.foldl (fun acc s => if s.Enabled r.Level then s.Handle r acc else acc) w

/-- The method `(*slog.Logger).log`: nothing happens unless the handler is enabled
for the level. -/
def Logger.log (l : Logger) (level : Int) (msg : String) (args : List (String × String))
    (w : World) : World :=
  if l.handler.Enabled level then
    l.handler.Handle { Level := level, Message := msg, Args := args } w
  else w

/-- The function `slog.Default`. -/
def Default (w : World) : Logger := w.defaultLogger

/-- The function `slog.SetDefault` (that it also redirects the output of the
package `log` is outside the model). -/
def SetDefault (l : Logger) (w : World) : World := { w with defaultLogger := l }

/-- The function `slog.Debug`. -/
def Debug (msg : String) (args : List (String × String)) (w : World) : World :=
  (Default w).log LevelDebug msg args w

/-- The function `slog.Info`. -/
def Info (msg : String) (args : List (String × String)) (w : World) : World :=
  (Default w).log LevelInfo msg args w

/-! ## Rendering of the configuration (`fmt.Sprintf("%+v", config)`) -/

/-- The method `slog.Level.String`: the name of the nearest named level at or
below, followed by the signed offset when it is not zero. -/
def levelString (l : Int) : String :=
  let str := fun (base : String) (val : Int) =>
    if val = 0 then base
    else base ++ (if 0 ≤ val then "+" else "-") ++ toString val.natAbs
  if l < LevelInfo then str "DEBUG" (l - LevelDebug)
  else if l < LevelWarn then str "INFO" (l - LevelInfo)
  else if l < LevelError then str "WARN" (l - LevelWarn)
  else str "ERROR" (l - LevelError)

/-- The verb `%+v` on a `Config`: field names and values inside braces, levels
through their `String` method. -/
def sprintfPlusV (c : Config) : String :=
  "\x7bLevel:" ++ levelString c.Level ++
  " ConsoleLevel:" ++ levelString c.ConsoleLevel ++
  " Format:" ++ c.Format ++
  " Output:" ++ c.Output ++
  " AddSource:" ++ toString c.AddSource ++
  " FileRotation:\x7bFilePath:" ++ c.FileRotation.FilePath ++
  " MaxSize:" ++ toString c.FileRotation.MaxSize ++
  " MaxBackups:" ++ toString c.FileRotation.MaxBackups ++
  " MaxAge:" ++ toString c.FileRotation.MaxAge ++
  " Compress:" ++ toString c.FileRotation.Compress ++ "\x7d\x7d"

/-! ## `Init` (`logsetup.go`, lines 39-114) -/

/-- The errors `Init` returns, one constructor for each `fmt.Errorf` of the
function. -/
inductive InitError where
  /-- Line 51: output `multi` with an empty `FileRotation.FilePath`. -/
  | multiPathEmpty
  /-- Line 86: output `file` with an empty `FilePath`. -/
  | filePathEmpty
  /-- Line 90: `os.OpenFile` failed; wraps the operating system's error. -/
  | openFailed (path : String) (cause : String)
  /-- Line 94: the output is none of the four destinations. -/
  | unknownOutput (output : String)
  /-- Line 104: the format is neither `json` nor `text`. -/
  | unknownFormat (format : String)
  deriving DecidableEq, Repr

/-- The text of an error (its method `Error`). -/
def InitError.Error : InitError → String
  | InitError.multiPathEmpty =>
    "se especificó salida \x27multi\x27 pero FileRotation.FilePath está vacío"
  | InitError.filePathEmpty => "se especificó salida a archivo pero FilePath está vacío"
  | InitError.openFailed path cause =>
    "no se pudo abrir el archivo de log " ++ path ++ ": " ++ cause
  | InitError.unknownOutput output => "destino de output desconocido: \x27" ++ output ++ "\x27"
  | InitError.unknownFormat format => "formato de log desconocido: \x27" ++ format ++ "\x27"

/-- Configuration errors are those decided by the configuration alone: a missing
required path or an unrecognized value.  A failed open is an input/output
error. -/
def InitError.isConfiguration : InitError → Bool
  | InitError.openFailed _ _ => false
  | _ => true

/-- Lines 41-106 of `Init`: the block that assigns the variable `handler`, or
returns early with an error. -/
def selectHandler (config : Config) (w : World) : Except InitError Handler × World :=
  let handlerOpts : HandlerOptions := { AddSource := config.AddSource, Level := config.Level }
  if config.Output = "multi" then
    if config.FileRotation.FilePath = "" then
      (Except.error InitError.multiPathEmpty, w)
    else
      let logRotate : LumberjackLogger :=
        { Filename := config.FileRotation.FilePath,
          MaxSize := config.FileRotation.MaxSize,
          MaxBackups := config.FileRotation.MaxBackups,
          MaxAge := config.FileRotation.MaxAge,
          Compress := config.FileRotation.Compress }
      let fileHandler := NewJSONHandler (Writer.Rotate logRotate) handlerOpts
      let consoleHandlerOpts : HandlerOptions :=
        { AddSource := config.AddSource, Level := config.ConsoleLevel }
      let consoleHandler := NewTextHandler Writer.Stderr consoleHandlerOpts
      (Except.ok (Fanout [fileHandler, consoleHandler]), w)
  else
    let resolved : Except InitError Writer × World :=
      if config.Output = "stdout" then (Except.ok Writer.Stdout, w)
      else if config.Output = "stderr" then (Except.ok Writer.Stderr, w)
      else if config.Output = "file" then
        if config.FileRotation.FilePath = "" then
          (Except.error InitError.filePathEmpty, w)
        else
          match OpenFile config.FileRotation.FilePath
              [OpenFlag.O_APPEND, OpenFlag.O_CREATE, OpenFlag.O_WRONLY] 0o666 w with
          | (Except.error err, w1) =>
            (Except.error (InitError.openFailed config.FileRotation.FilePath err), w1)
          | (Except.ok file, w1) => (Except.ok file, w1)
      else (Except.error (InitError.unknownOutput config.Output), w)
    match resolved with
    | (Except.error err, w1) => (Except.error err, w1)
    | (Except.ok writer, w1) =>
      if config.Format = "json" then
        (Except.ok (Handler.Single (NewJSONHandler writer handlerOpts)), w1)
      else if config.Format = "text" then
        (Except.ok (Handler.Single (NewTextHandler writer handlerOpts)), w1)
      else (Except.error (InitError.unknownFormat config.Format), w1)

/-- What `Init` returns (`logger` is `none` for a nil pointer, `err` is `none` for
a nil error) together with the world it leaves. -/
structure InitResult where
  logger : Option Logger
  err : Option InitError
  world : World

/-- The diagnostic that `Init` logs on success (line 112). -/
def initMessage : String := "Logger inicializado exitosamente"

/-- The function `Init`. -/
def Init (config : Config) (w : World) : InitResult :=
  match selectHandler config w with
  | (Except.error err, w1) => { logger := none, err := some err, world := w1 }
  | (Except.ok handler, w1) =>
    let logger := New handler
    let w2 := SetDefault logger w1
    let w3 := Debug initMessage [("config", sprintfPlusV config)] w2
    { logger := some logger, err := none, world := w3 }

/-! ## The context carrier (`logsetup.go`, lines 36-37 and 116-129) -/

/-- Keys of context values: the private type `loggerKey`, or a key of some other
package. -/
inductive Key where
  | loggerKey
  | foreign (name : String)
  deriving DecidableEq, Repr

/-- Values stored in a context: a `*slog.Logger` (possibly nil), or a value of
some other type. -/
inductive Value where
  | logger (l : Option Logger)
  | other (v : String)
  deriving DecidableEq, Repr

/-- A non-nil `context.Context`, as far as values go: the empty context, or a
context derived from a parent by `context.WithValue`.  A variable of the
interface type `context.Context` is an `Option Context`, with `none` for nil. -/
inductive Context where
  | Background
  | valueCtx (parent : Context) (key : Key) (val : Value)
  deriving DecidableEq, Repr

/-- A run-time panic of the Go program. -/
inductive Panic where
  /-- A method called on a nil interface: invalid memory address or nil pointer
  dereference. -/
  | nilDereference
  /-- The guard of `context.WithValue`: cannot create context from nil parent. -/
  | nilParent
  deriving DecidableEq, Repr

/-- The method `Value`: the most recent binding of the key, `none` (a nil
interface) when there is none. -/
def Context.Value : Context → Key → Option Value
  | Context.Background, _ => none
  | Context.valueCtx parent key val, k => if k = key then some val else parent.Value k

/-- The function `context.WithValue`: panics on a nil parent, otherwise derives a
new context from the parent. -/
def WithValue (parent : Option Context) (key : Key) (val : Value) : Except Panic Context :=
  match parent with
  | none => Except.error Panic.nilParent
  | some p => Except.ok (Context.valueCtx p key val)

/-- The function `SetContextWithLogger`. -/
def SetContextWithLogger (ctx : Option Context) (logger : Option Logger) :
    Except Panic Context :=
  WithValue ctx Key.loggerKey (Value.logger logger)

/-- The function `LoggerFromContext`: `ctx.Value` is called with no nil guard, so
a nil context panics; on a non-nil context the type assertion to `*slog.Logger`
succeeds exactly on a stored logger pointer, and otherwise the default logger is
returned. -/
def LoggerFromContext (ctx : Option Context) (w : World) : Except Panic (Option Logger) :=
  match ctx with
  | none => Except.error Panic.nilDereference
  | some c =>
    match c.Value Key.loggerKey with
    | some (Value.logger logger) => Except.ok logger
    | _ => Except.ok (some (Default w))

/-! ## The example program (`src/cmd/main.go`) -/

/-- The variable `logConfigProd` of `Log_example_main`. -/
def logConfigProd : Config :=
  { Level := LevelDebug,
    ConsoleLevel := LevelInfo,
    Format := "",
    Output := "multi",
    AddSource := true,
    FileRotation :=
      { FilePath := "log/app.log", MaxSize := 100, MaxBackups := 3, MaxAge := 28,
        Compress := true } }

/-- The function `Log_example_main`; `Except.error` is the process ending in
`log.Fatalf` with that message. -/
def Log_example_main (w : World) : Except String World :=
  match Init logConfigProd w with
  | { logger := _, err := some err, world := _ } =>
    Except.error ("No se pudo inicializar el logger: " ++ err.Error)
  | { logger := _, err := none, world := w1 } =>
    let w2 := Info "Aplicación iniciada con logger de producción (multi-salida)" [] w1
    Except.ok (Debug "Este mensaje solo irá al archivo, no a la consola." [] w2)

/-! ## Auxiliary definitions for the statements -/

/-- The leaf handlers a handler dispatches to. -/
def Handler.members : Handler → List Sink
  | Handler.Default => []
  | Handler.Single s => [s]
  | Handler.FanoutOf hs => hs

/-- The write a leaf handler performs for a record. -/
def Sink.writeOf (s : Sink) (r : Record) : Effect :=
  Effect.write s.writer { encoding := s.encoding, source := s.opts.AddSource, record := r }

/-- The record `Init` logs on success. -/
def initRecord (config : Config) : Record :=
  { Level := LevelDebug, Message := initMessage, Args := [("config", sprintfPlusV config)] }

/-- The rotating writer `Init` builds in multi mode (lines 55-61). -/
def rotateOf (config : Config) : Writer :=
  Writer.Rotate
    { Filename := config.FileRotation.FilePath,
      MaxSize := config.FileRotation.MaxSize,
      MaxBackups := config.FileRotation.MaxBackups,
      MaxAge := config.FileRotation.MaxAge,
      Compress := config.FileRotation.Compress }

/-- The order of checks as the specification words it, with the open of the file
placed where `Init` performs it: multi without path, file without path, unknown
output, failed open (file mode only), unknown format (single-destination modes
only).  The argument `openErr` is the verdict of the operating system on opening
the configured path. -/
def firstFailingCheck (config : Config) (openErr : Option String) : Option InitError :=
  if config.Output = "multi" ∧ config.FileRotation.FilePath = "" then
    some InitError.multiPathEmpty
  else if config.Output = "file" ∧ config.FileRotation.FilePath = "" then
    some InitError.filePathEmpty
  else if config.Output ∉ ["stdout", "stderr", "file", "multi"] then
    some (InitError.unknownOutput config.Output)
  else
    match (if config.Output = "file" then openErr else none) with
    | some cause => some (InitError.openFailed config.FileRotation.FilePath cause)
    | none =>
      if config.Output ≠ "multi" ∧ config.Format ∉ ["json", "text"] then
        some (InitError.unknownFormat config.Format)
      else none

/-! ## Sample inputs -/

/-- A configuration with the given output, format and file path, at level `Info`. -/
def sampleConfig (output format path : String) : Config :=
  { Level := LevelInfo, ConsoleLevel := LevelInfo, Format := format, Output := output,
    AddSource := false,
    FileRotation :=
      { FilePath := path, MaxSize := 0, MaxBackups := 0, MaxAge := 0, Compress := false } }

/-- A multi configuration whose file takes errors only and whose console takes
`Info` and above. -/
def sampleQuietFile : Config :=
  { Level := LevelError, ConsoleLevel := LevelInfo, Format := "", Output := "multi",
    AddSource := false,
    FileRotation :=
      { FilePath := "log/app.log", MaxSize := 100, MaxBackups := 3, MaxAge := 28,
        Compress := true } }

/-- A fresh process on a file system where the directory `log` is missing, so
that the attempt to open `log/app.log` fails. -/
def World.noLogDir : World :=
  { World.fresh with
    openErr := fun p =>
      if p = "log/app.log" then some "open log/app.log: no such file or directory" else none }

/-! ## Lemmas on dispatch -/

theorem fanout_foldl_trace (hs : List Sink) (r : Record) (w : World) :
    (hs.foldl (fun acc s => if s.Enabled r.Level then s.Handle r acc else acc) w).trace =
      w.trace ++ (hs.filter fun s => s.Enabled r.Level).map fun s => s.writeOf r := by
  induction hs generalizing w with
  | nil => simp
  | cons s tl ih =>
    by_cases h : s.Enabled r.Level = true
    · simp only [List.foldl_cons, h, if_true, List.filter_cons, List.map_cons]
      rw [ih]
      simp [Sink.Handle, Sink.writeOf]
    · simp [List.foldl, h, ih]

theorem fanout_foldl_defaultLogger (hs : List Sink) (r : Record) (w : World) :
    (hs.foldl (fun acc s => if s.Enabled r.Level then s.Handle r acc else acc) w).defaultLogger =
      w.defaultLogger := by
  induction hs generalizing w with
  | nil => simp
  | cons s tl ih =>
    by_cases h : s.Enabled r.Level = true
    · simp only [List.foldl_cons, h, if_true]
      rw [ih]
      simp [Sink.Handle]
    · simp [List.foldl, h, ih]

/-- Logging through a handler built from leaf handlers writes, in order, one
entry for each member whose threshold the level reaches, and nothing else. -/
theorem log_trace (h : Handler) (hne : h ≠ Handler.Default) (level : Int) (msg : String)
    (args : List (String × String)) (w : World) :
    ((New h).log level msg args w).trace =
      w.trace ++ (h.members.filter fun s => s.Enabled level).map fun s =>
        s.writeOf { Level := level, Message := msg, Args := args } := by
  cases h with
  | Default => exact absurd rfl hne
  | Single s =>
    by_cases he : s.Enabled level = true
    · simp [Logger.log, New, Handler.Enabled, Handler.Handle, Handler.members, he, Sink.Handle,
        Sink.writeOf]
    · simp [Logger.log, New, Handler.Enabled, Handler.members, he]
  | FanoutOf hs =>
    by_cases he : (hs.any fun s => s.Enabled level) = true
    · simp only [Logger.log, New, Handler.Enabled, he, if_true, Handler.Handle, Handler.members]
      exact fanout_foldl_trace hs { Level := level, Message := msg, Args := args } w
    · have hnone : (hs.filter fun s => s.Enabled level) = [] := by
        rw [List.filter_eq_nil_iff]
        intro s hs'
        intro hcon
        exact he (List.any_eq_true.mpr ⟨s, hs', hcon⟩)
      simp [Logger.log, New, Handler.Enabled, Handler.members, he, hnone]

/-- Logging never changes the default logger. -/
theorem log_defaultLogger (l : Logger) (level : Int) (msg : String)
    (args : List (String × String)) (w : World) :
    (l.log level msg args w).defaultLogger = w.defaultLogger := by
  obtain ⟨h⟩ := l
  cases h with
  | Default => unfold Logger.log; split <;> simp [Handler.Handle]
  | Single s => unfold Logger.log; split <;> simp [Handler.Handle, Sink.Handle]
  | FanoutOf hs =>
    unfold Logger.log
    split
    · exact fanout_foldl_defaultLogger hs _ w
    · rfl

/-! ## Facts about `selectHandler` -/

theorem selectHandler_multi (config : Config) (w : World) (hout : config.Output = "multi")
    (hpath : config.FileRotation.FilePath ≠ "") :
    selectHandler config w =
      (Except.ok (Handler.FanoutOf
        [ { encoding := Encoding.JSON, writer := rotateOf config,
            opts := { AddSource := config.AddSource, Level := config.Level } },
          { encoding := Encoding.Text, writer := Writer.Stderr,
            opts := { AddSource := config.AddSource, Level := config.ConsoleLevel } } ]), w) := by
  simp [selectHandler, hout, hpath, Fanout, NewJSONHandler, NewTextHandler, rotateOf]

/-- Selecting the handler never touches the default logger. -/
theorem selectHandler_defaultLogger (config : Config) (w : World) :
    (selectHandler config w).2.defaultLogger = w.defaultLogger := by
  by_cases hm : config.Output = "multi"
  · by_cases hp : config.FileRotation.FilePath = "" <;> simp [selectHandler, hm, hp]
  by_cases h1 : config.Output = "stdout"
  · by_cases hj : config.Format = "json" <;> by_cases ht : config.Format = "text" <;>
      simp [selectHandler, h1, hj, ht]
  by_cases h2 : config.Output = "stderr"
  · by_cases hj : config.Format = "json" <;> by_cases ht : config.Format = "text" <;>
      simp [selectHandler, h2, hj, ht]
  by_cases h3 : config.Output = "file"
  · by_cases hp : config.FileRotation.FilePath = ""
    · simp [selectHandler, h3, hp]
    · cases ho : w.openErr config.FileRotation.FilePath with
      | some cause => simp [selectHandler, h3, hp, OpenFile, ho]
      | none =>
        by_cases hex : config.FileRotation.FilePath ∈ w.files <;>
        by_cases hj : config.Format = "json" <;>
        by_cases ht : config.Format = "text" <;>
        simp [selectHandler, h3, hp, OpenFile, ho, hex, hj, ht]
  · simp [selectHandler, hm, h1, h2, h3]

/-- A handler selected by `Init` is never the built-in one. -/
theorem selectHandler_ne_default (config : Config) (w w1 : World) (h : Handler)
    (hsel : selectHandler config w = (Except.ok h, w1)) : h ≠ Handler.Default := by
  intro hd
  subst hd
  revert hsel
  by_cases hm : config.Output = "multi"
  · by_cases hp : config.FileRotation.FilePath = "" <;> simp [selectHandler, hm, hp, Fanout]
  by_cases h1 : config.Output = "stdout"
  · by_cases hj : config.Format = "json" <;> by_cases ht : config.Format = "text" <;>
      simp [selectHandler, h1, hj, ht]
  by_cases h2 : config.Output = "stderr"
  · by_cases hj : config.Format = "json" <;> by_cases ht : config.Format = "text" <;>
      simp [selectHandler, h2, hj, ht]
  by_cases h3 : config.Output = "file"
  · by_cases hp : config.FileRotation.FilePath = ""
    · simp [selectHandler, h3, hp]
    · cases ho : w.openErr config.FileRotation.FilePath with
      | some cause => simp [selectHandler, h3, hp, OpenFile, ho]
      | none =>
        by_cases hex : config.FileRotation.FilePath ∈ w.files <;>
        by_cases hj : config.Format = "json" <;>
        by_cases ht : config.Format = "text" <;>
        simp [selectHandler, h3, hp, OpenFile, ho, hex, hj, ht]
  · simp [selectHandler, hm, h1, h2, h3]

/-- The entries at a writer after more effects. -/
theorem entriesAt_append (w w2 : World) (es : List Effect) (dst : Writer)
    (h : w2.trace = w.trace ++ es) :
    w2.entriesAt dst = w.entriesAt dst ++
      es.filterMap fun e =>
        match e with
        | Effect.write d x => if d = dst then some x else none
        | Effect.opened _ _ _ => none := by
  simp [World.entriesAt, h, List.filterMap_append]

/-- After a successful selection, `Init` returns and installs the logger over the
selected handler. -/
theorem Init_of_selected (config : Config) (w w1 : World) (h : Handler)
    (hsel : selectHandler config w = (Except.ok h, w1)) :
    (Init config w).err = none ∧ (Init config w).logger = some (New h) ∧
    (Init config w).world.defaultLogger = New h := by
  simp [Init, hsel, Debug, Default, SetDefault, log_defaultLogger]

/-! ## The claims -/

/-- C1: for every configuration whose output is `multi` or `file` and whose file
path is empty, `Init` returns a nil logger and a configuration error (the
multi-path error, respectively the file-path error), no handler is built, and the
world is left exactly as it was: no file opened, nothing written, and the
same default logger. -/
theorem Init_empty_path_error (config : Config) (w : World)
    (hout : config.Output = "multi" ∨ config.Output = "file")
    (hpath : config.FileRotation.FilePath = "") :
    (Init config w).logger = none ∧
    (Init config w).err =
      some (if config.Output = "multi" then InitError.multiPathEmpty
            else InitError.filePathEmpty) ∧
    (∃ e, e.isConfiguration = true ∧ (Init config w).err = some e ∧
      selectHandler config w = (Except.error e, w)) ∧
    (Init config w).world = w := by
  rcases hout with hout | hout
  · simp [Init, selectHandler, hout, hpath, InitError.isConfiguration]
  · simp [Init, selectHandler, hout, hpath, InitError.isConfiguration]

theorem Init_empty_path_error_witness :
    ((sampleConfig "file" "json" "").Output = "multi" ∨
      (sampleConfig "file" "json" "").Output = "file") ∧
    (sampleConfig "file" "json" "").FileRotation.FilePath = "" ∧
    (Init (sampleConfig "file" "json" "") World.fresh).logger = none ∧
    (Init (sampleConfig "file" "json" "") World.fresh).err =
      some (if (sampleConfig "file" "json" "").Output = "multi" then InitError.multiPathEmpty
            else InitError.filePathEmpty) :=
  ⟨Or.inr rfl, rfl,
    (Init_empty_path_error (sampleConfig "file" "json" "") World.fresh (Or.inr rfl) rfl).1,
    (Init_empty_path_error (sampleConfig "file" "json" "") World.fresh (Or.inr rfl) rfl).2.1⟩

/-- C9: for every configuration with output `multi` and a non-empty file path,
whatever its format, `Init` succeeds and the logger it returns is a fan-out of
exactly two sinks in this order: a JSON sink over a rotating writer that takes its
file name, size, backups, age and compression from `FileRotation`, filtered at
`Level`; then a text sink on stderr filtered at `ConsoleLevel`; both with
`AddSource`. -/
theorem Init_multi_two_sinks (config : Config) (w : World)
    (hout : config.Output = "multi") (hpath : config.FileRotation.FilePath ≠ "") :
    (Init config w).err = none ∧
    (Init config w).logger =
      some (New (Handler.FanoutOf
        [ { encoding := Encoding.JSON,
            writer := Writer.Rotate
              { Filename := config.FileRotation.FilePath,
                MaxSize := config.FileRotation.MaxSize,
                MaxBackups := config.FileRotation.MaxBackups,
                MaxAge := config.FileRotation.MaxAge,
                Compress := config.FileRotation.Compress },
            opts := { AddSource := config.AddSource, Level := config.Level } },
          { encoding := Encoding.Text,
            writer := Writer.Stderr,
            opts := { AddSource := config.AddSource, Level := config.ConsoleLevel } } ])) := by
  simp [Init, selectHandler_multi config w hout hpath, New, rotateOf]

theorem Init_multi_two_sinks_witness :
    logConfigProd.Output = "multi" ∧ logConfigProd.FileRotation.FilePath ≠ "" ∧
    (Init logConfigProd World.fresh).err = none ∧
    (Init logConfigProd World.fresh).logger =
      some (New (Handler.FanoutOf
        [ { encoding := Encoding.JSON,
            writer := Writer.Rotate
              { Filename := "log/app.log", MaxSize := 100, MaxBackups := 3, MaxAge := 28,
                Compress := true },
            opts := { AddSource := true, Level := -4 } },
          { encoding := Encoding.Text,
            writer := Writer.Stderr,
            opts := { AddSource := true, Level := 0 } } ])) :=
  ⟨rfl, by decide, Init_multi_two_sinks logConfigProd World.fresh rfl (by decide)⟩

/-- C2, counterexample: with output `multi`, a non-empty file path and the
unrecognized format `xml`, `Init` returns no error and a logger. -/
theorem Init_multi_unknown_format_ok :
    (sampleConfig "multi" "xml" "log/app.log").Format ∉ ["json", "text"] ∧
    (sampleConfig "multi" "xml" "log/app.log").Output = "multi" ∧
    (sampleConfig "multi" "xml" "log/app.log").FileRotation.FilePath ≠ "" ∧
    (Init (sampleConfig "multi" "xml" "log/app.log") World.fresh).err = none ∧
    (Init (sampleConfig "multi" "xml" "log/app.log") World.fresh).logger ≠ none := by
  refine ⟨by decide, rfl, by decide, ?_, ?_⟩
  · simp [Init, selectHandler_multi (sampleConfig "multi" "xml" "log/app.log") World.fresh rfl
      (by decide)]
  · simp [Init, selectHandler_multi (sampleConfig "multi" "xml" "log/app.log") World.fresh rfl
      (by decide)]

/-- C2, amended: for every configuration, if the output is none of `stdout`,
`stderr`, `file`, `multi`, or if the output is not `multi` and the format is
neither `json` nor `text`, then `Init` returns a nil logger and an error.  The
error is a configuration error, except that with output `file` and a non-empty
path that cannot be opened it is the error of the open.  With output `multi` the
format is not examined: with a non-empty path `Init` succeeds. -/
theorem Init_unknown_value_error (config : Config) (w : World) :
    ((config.Output ∉ ["stdout", "stderr", "file", "multi"] ∨
        (config.Output ≠ "multi" ∧ config.Format ∉ ["json", "text"])) →
      (Init config w).logger = none ∧
      ∃ e, (Init config w).err = some e ∧
        (e.isConfiguration = true ∨
          (config.Output = "file" ∧ config.FileRotation.FilePath ≠ "" ∧
            ∃ cause, w.openErr config.FileRotation.FilePath = some cause ∧
              e = InitError.openFailed config.FileRotation.FilePath cause))) ∧
    (config.Output = "multi" → config.FileRotation.FilePath ≠ "" →
      (Init config w).err = none ∧ (Init config w).logger ≠ none) := by
  refine ⟨?_, fun hout hpath => by
    simp [Init, selectHandler_multi config w hout hpath]⟩
  intro hbad
  by_cases hm : config.Output = "multi"
  · simp [hm] at hbad
  by_cases h1 : config.Output = "stdout"
  · have hf : config.Format ≠ "json" ∧ config.Format ≠ "text" := by
      rcases hbad with hb | hb
      · simp [h1] at hb
      · simpa using hb.2
    simp [Init, selectHandler, h1, hf.1, hf.2, InitError.isConfiguration]
  by_cases h2 : config.Output = "stderr"
  · have hf : config.Format ≠ "json" ∧ config.Format ≠ "text" := by
      rcases hbad with hb | hb
      · simp [h2] at hb
      · simpa using hb.2
    simp [Init, selectHandler, h2, hf.1, hf.2, InitError.isConfiguration]
  by_cases h3 : config.Output = "file"
  · have hf : config.Format ≠ "json" ∧ config.Format ≠ "text" := by
      rcases hbad with hb | hb
      · simp [h3] at hb
      · simpa using hb.2
    by_cases hp : config.FileRotation.FilePath = ""
    · simp [Init, selectHandler, h3, hp, InitError.isConfiguration]
    · cases ho : w.openErr config.FileRotation.FilePath with
      | some cause =>
        simp [Init, selectHandler, h3, hp, OpenFile, ho, InitError.isConfiguration]
      | none =>
        by_cases hex : config.FileRotation.FilePath ∈ w.files
        · simp [Init, selectHandler, h3, hp, OpenFile, ho, hex, hf.1, hf.2,
            InitError.isConfiguration]
        · simp [Init, selectHandler, h3, hp, OpenFile, ho, hex, hf.1, hf.2,
            InitError.isConfiguration]
  · simp [Init, selectHandler, hm, h1, h2, h3, InitError.isConfiguration]

theorem Init_unknown_value_error_witness :
    ((sampleConfig "syslog" "text" "").Output ∉ ["stdout", "stderr", "file", "multi"] ∨
      ((sampleConfig "syslog" "text" "").Output ≠ "multi" ∧
        (sampleConfig "syslog" "text" "").Format ∉ ["json", "text"])) ∧
    (Init (sampleConfig "syslog" "text" "") World.fresh).logger = none :=
  ⟨Or.inl (by decide),
    ((Init_unknown_value_error (sampleConfig "syslog" "text" "") World.fresh).1
      (Or.inl (by decide))).1⟩

/-- C3, counterexample: with output `file`, the non-empty path `log/app.log`
that cannot be opened and the unrecognized format `xml`, the checks on the output
and the path pass and the format is unrecognized, yet the error `Init` returns is
the error of the open, not the unknown-format error. -/
theorem Init_open_error_before_format :
    (sampleConfig "file" "xml" "log/app.log").Output = "file" ∧
    (sampleConfig "file" "xml" "log/app.log").FileRotation.FilePath ≠ "" ∧
    (sampleConfig "file" "xml" "log/app.log").Format ∉ ["json", "text"] ∧
    (Init (sampleConfig "file" "xml" "log/app.log") World.noLogDir).err =
      some (InitError.openFailed "log/app.log" "open log/app.log: no such file or directory") ∧
    (Init (sampleConfig "file" "xml" "log/app.log") World.noLogDir).err ≠
      some (InitError.unknownFormat "xml") := by
  have herr : (Init (sampleConfig "file" "xml" "log/app.log") World.noLogDir).err =
      some (InitError.openFailed "log/app.log"
        "open log/app.log: no such file or directory") := by
    simp [Init, selectHandler, sampleConfig, OpenFile, World.noLogDir]
  refine ⟨rfl, by decide, by decide, herr, ?_⟩
  rw [herr]
  simp

/-- C3, amended: the error of `Init` is the first failing check in this order:
output `multi` with empty path (multi-path error); output `file` with empty path
(file-path error); unrecognized output (unknown-output error); in file mode, a
path that cannot be opened (error of the open); and only then, in
single-destination modes, an unrecognized format (unknown-format error).  Hence
an unrecognized output together with an unrecognized format gives the
unknown-output error, and output `file` with empty path and an unrecognized
format gives the file-path error. -/
theorem Init_check_order (config : Config) (w : World) :
    (Init config w).err = firstFailingCheck config (w.openErr config.FileRotation.FilePath) ∧
    (config.Output ∉ ["stdout", "stderr", "file", "multi"] →
      config.Format ∉ ["json", "text"] →
      (Init config w).err = some (InitError.unknownOutput config.Output)) ∧
    (config.Output = "file" → config.FileRotation.FilePath = "" →
      config.Format ∉ ["json", "text"] →
      (Init config w).err = some InitError.filePathEmpty) := by
  refine ⟨?_, ?_, ?_⟩
  · by_cases hm : config.Output = "multi"
    · by_cases hp : config.FileRotation.FilePath = ""
      · simp [Init, selectHandler, firstFailingCheck, hm, hp]
      · simp [Init, selectHandler, firstFailingCheck, hm, hp]
    by_cases h1 : config.Output = "stdout"
    · by_cases hj : config.Format = "json"
      · simp [Init, selectHandler, firstFailingCheck, h1, hj]
      · by_cases ht : config.Format = "text"
        · simp [Init, selectHandler, firstFailingCheck, h1, ht]
        · simp [Init, selectHandler, firstFailingCheck, h1, hj, ht]
    by_cases h2 : config.Output = "stderr"
    · by_cases hj : config.Format = "json"
      · simp [Init, selectHandler, firstFailingCheck, h2, hj]
      · by_cases ht : config.Format = "text"
        · simp [Init, selectHandler, firstFailingCheck, h2, ht]
        · simp [Init, selectHandler, firstFailingCheck, h2, hj, ht]
    by_cases h3 : config.Output = "file"
    · by_cases hp : config.FileRotation.FilePath = ""
      · simp [Init, selectHandler, firstFailingCheck, h3, hp]
      · cases ho : w.openErr config.FileRotation.FilePath with
        | some cause => simp [Init, selectHandler, firstFailingCheck, h3, hp, OpenFile, ho]
        | none =>
          by_cases hex : config.FileRotation.FilePath ∈ w.files <;>
          by_cases hj : config.Format = "json" <;>
          by_cases ht : config.Format = "text" <;>
          simp_all [Init, selectHandler, firstFailingCheck, OpenFile]
    · simp [Init, selectHandler, firstFailingCheck, hm, h1, h2, h3]
  · intro hout _
    have h : config.Output ≠ "stdout" ∧ config.Output ≠ "stderr" ∧ config.Output ≠ "file" ∧
        config.Output ≠ "multi" := by simpa using hout
    simp [Init, selectHandler, h.1, h.2.1, h.2.2.1, h.2.2.2]
  · intro hout hp _
    simp [Init, selectHandler, hout, hp]

theorem Init_check_order_witness :
    (sampleConfig "syslog" "xml" "").Output ∉ ["stdout", "stderr", "file", "multi"] ∧
    (sampleConfig "syslog" "xml" "").Format ∉ ["json", "text"] ∧
    (Init (sampleConfig "syslog" "xml" "") World.fresh).err =
      some (InitError.unknownOutput "syslog") ∧
    (sampleConfig "file" "xml" "").Output = "file" ∧
    (sampleConfig "file" "xml" "").FileRotation.FilePath = "" ∧
    (Init (sampleConfig "file" "xml" "") World.fresh).err = some InitError.filePathEmpty :=
  ⟨by decide, by decide,
    (Init_check_order (sampleConfig "syslog" "xml" "") World.fresh).2.1 (by decide) (by decide),
    rfl, rfl,
    (Init_check_order (sampleConfig "file" "xml" "") World.fresh).2.2 rfl rfl (by decide)⟩

/-- C10: whenever `Init` returns an error, the logger it returns is nil and
the default logger is the one from before the call; but with output `file`, a
non-empty path that can be opened and an unrecognized format, `Init` has opened
the file with the flags append, create and write-only and mode 0666 (so the file
exists afterwards, created if it was absent) when it returns the unknown-format
error. -/
theorem Init_error_effects (config : Config) (w : World) :
    ((Init config w).err ≠ none →
      (Init config w).logger = none ∧ (Init config w).world.defaultLogger = w.defaultLogger) ∧
    (config.Output = "file" → config.FileRotation.FilePath ≠ "" →
      w.openErr config.FileRotation.FilePath = none →
      config.Format ∉ ["json", "text"] →
      (Init config w).err = some (InitError.unknownFormat config.Format) ∧
      (Init config w).world.trace = w.trace ++
        [Effect.opened config.FileRotation.FilePath
          [OpenFlag.O_APPEND, OpenFlag.O_CREATE, OpenFlag.O_WRONLY] 0o666] ∧
      config.FileRotation.FilePath ∈ (Init config w).world.files ∧
      (config.FileRotation.FilePath ∉ w.files →
        (Init config w).world.files = w.files ++ [config.FileRotation.FilePath])) := by
  refine ⟨?_, ?_⟩
  · intro herr
    unfold Init at herr ⊢
    rcases hsel : selectHandler config w with ⟨res, w1⟩
    cases res with
    | ok h => simp [hsel] at herr
    | error e =>
      refine ⟨by simp, ?_⟩
      have hw := selectHandler_defaultLogger config w
      rw [hsel] at hw
      exact hw
  · intro hout hp ho hf
    have hf' : config.Format ≠ "json" ∧ config.Format ≠ "text" := by simpa using hf
    by_cases hex : config.FileRotation.FilePath ∈ w.files
    · simp [Init, selectHandler, hout, hp, OpenFile, ho, hex, hf'.1, hf'.2]
    · simp [Init, selectHandler, hout, hp, OpenFile, ho, hex, hf'.1, hf'.2]

theorem Init_error_effects_witness :
    (sampleConfig "file" "xml" "log/app.log").Output = "file" ∧
    (sampleConfig "file" "xml" "log/app.log").FileRotation.FilePath ≠ "" ∧
    World.fresh.openErr (sampleConfig "file" "xml" "log/app.log").FileRotation.FilePath = none ∧
    (sampleConfig "file" "xml" "log/app.log").Format ∉ ["json", "text"] ∧
    (Init (sampleConfig "file" "xml" "log/app.log") World.fresh).err =
      some (InitError.unknownFormat "xml") ∧
    (Init (sampleConfig "file" "xml" "log/app.log") World.fresh).world.trace =
      [Effect.opened "log/app.log"
        [OpenFlag.O_APPEND, OpenFlag.O_CREATE, OpenFlag.O_WRONLY] 0o666] ∧
    "log/app.log" ∈ (Init (sampleConfig "file" "xml" "log/app.log") World.fresh).world.files :=
  ⟨rfl, by decide, rfl, by decide,
    ((Init_error_effects (sampleConfig "file" "xml" "log/app.log") World.fresh).2 rfl
      (by decide) rfl (by decide)).1,
    ((Init_error_effects (sampleConfig "file" "xml" "log/app.log") World.fresh).2 rfl
      (by decide) rfl (by decide)).2.1,
    ((Init_error_effects (sampleConfig "file" "xml" "log/app.log") World.fresh).2 rfl
      (by decide) rfl (by decide)).2.2.1⟩

/-- C7: whenever `Init` succeeds, it returns a nil error and a logger; the
logger is built from the handler that was selected and is the default logger
after the call; the world after the call is the world after selecting the handler
with the default replaced and exactly one record, the diagnostic at `Debug`
severity, logged through the new default; and that diagnostic is written once to
each sink whose threshold is at most `Debug` and to no other. -/
theorem Init_success (config : Config) (w : World) (hok : (Init config w).err = none) :
    (Init config w).logger = some (Init config w).world.defaultLogger ∧
    (selectHandler config w).1 = Except.ok (Init config w).world.defaultLogger.handler ∧
    (Init config w).world =
      ((Init config w).world.defaultLogger).log LevelDebug initMessage
        [("config", sprintfPlusV config)]
        (SetDefault (Init config w).world.defaultLogger (selectHandler config w).2) ∧
    (Init config w).world.trace = (selectHandler config w).2.trace ++
      ((Init config w).world.defaultLogger.handler.members.filter
        fun s => decide (s.opts.Level ≤ LevelDebug)).map
        fun s => s.writeOf (initRecord config) := by
  rcases hsel : selectHandler config w with ⟨res, w1⟩
  cases res with
  | error e => simp [Init, hsel] at hok
  | ok h =>
    have hne := selectHandler_ne_default config w w1 h hsel
    have hdef : (Init config w).world.defaultLogger = New h := by
      simp [Init, hsel, Debug, Default, SetDefault, log_defaultLogger]
    rw [hdef]
    refine ⟨by simp [Init, hsel], by simp [New], ?_, ?_⟩
    · simp [Init, hsel, Debug, Default, SetDefault]
    · have ht := log_trace h hne LevelDebug initMessage [("config", sprintfPlusV config)]
        (SetDefault (New h) w1)
      simp only [Init, hsel, Debug, Default, SetDefault] at ht ⊢
      rw [ht]
      simp [New, initRecord, Sink.Enabled]

theorem Init_success_witness :
    (Init logConfigProd World.fresh).err = none ∧
    (Init logConfigProd World.fresh).logger =
      some (Init logConfigProd World.fresh).world.defaultLogger :=
  ⟨by simp [Init, selectHandler_multi logConfigProd World.fresh rfl (by decide)],
    (Init_success logConfigProd World.fresh
      (by simp [Init, selectHandler_multi logConfigProd World.fresh rfl (by decide)])).1⟩

/-- C8: on a nil context the lookup does not return the default logger but
panics, for every world, and binding a logger to a nil context panics too.  On
every non-nil context the claim holds: looking up the logger in the context
derived by `SetContextWithLogger` returns that logger, also over an earlier
binding; the derived context is a new value with the given context as parent, so
every other key reads as before; on a context without a bound logger the lookup
returns the default logger of the world in which it is called, in particular the
logger a later successful `Init` installed. -/
theorem LoggerFromContext_spec (ctx : Context) (l : Option Logger) (w : World) :
    LoggerFromContext none w = Except.error Panic.nilDereference ∧
    SetContextWithLogger none l = Except.error Panic.nilParent ∧
    SetContextWithLogger (some ctx) l =
      Except.ok (Context.valueCtx ctx Key.loggerKey (Value.logger l)) ∧
    (SetContextWithLogger (some ctx) l >>= fun c => LoggerFromContext (some c) w) =
      Except.ok l ∧
    (∀ l0, (SetContextWithLogger (some ctx) l0 >>= fun c0 =>
        SetContextWithLogger (some c0) l >>= fun c => LoggerFromContext (some c) w) =
      Except.ok l) ∧
    (∀ k, k ≠ Key.loggerKey →
      (Context.valueCtx ctx Key.loggerKey (Value.logger l)).Value k = ctx.Value k) ∧
    (ctx.Value Key.loggerKey = none →
      LoggerFromContext (some ctx) w = Except.ok (some w.defaultLogger) ∧
      ∀ config, (Init config w).err = none →
        LoggerFromContext (some ctx) (Init config w).world =
          Except.ok (Init config w).logger) := by
  have hbind : ∀ (c : Context) (x : Option Logger) (f : Context → Except Panic (Option Logger)),
      (SetContextWithLogger (some c) x >>= f) =
        f (Context.valueCtx c Key.loggerKey (Value.logger x)) := by
    intro c x f
    rfl
  have hget : ∀ (c : Context) (x : Option Logger),
      LoggerFromContext (some (Context.valueCtx c Key.loggerKey (Value.logger x))) w =
        Except.ok x := by
    intro c x
    simp [LoggerFromContext, Context.Value]
  refine ⟨rfl, rfl, rfl, ?_, ?_, ?_, ?_⟩
  · rw [hbind, hget]
  · intro l0
    rw [hbind, hbind, hget]
  · intro k hk
    simp [Context.Value, hk]
  · intro hno
    have hdef : ∀ w0 : World,
        LoggerFromContext (some ctx) w0 = Except.ok (some w0.defaultLogger) := by
      intro w0
      simp [LoggerFromContext, hno, Default]
    refine ⟨hdef w, ?_⟩
    intro config hok
    rw [hdef]
    rcases hsel : selectHandler config w with ⟨res, w1⟩
    cases res with
    | error e => simp [Init, hsel] at hok
    | ok h => simp [Init, hsel, Debug, Default, SetDefault, log_defaultLogger]

theorem LoggerFromContext_spec_witness :
    LoggerFromContext none World.fresh = Except.error Panic.nilDereference ∧
    SetContextWithLogger none (some (New Handler.Default)) = Except.error Panic.nilParent ∧
    Context.Background.Value Key.loggerKey = none ∧
    LoggerFromContext (some Context.Background) World.fresh =
      Except.ok (some (New Handler.Default)) ∧
    (Init logConfigProd World.fresh).err = none ∧
    LoggerFromContext (some Context.Background) (Init logConfigProd World.fresh).world =
      Except.ok (Init logConfigProd World.fresh).logger :=
  ⟨(LoggerFromContext_spec Context.Background (some (New Handler.Default)) World.fresh).1,
    (LoggerFromContext_spec Context.Background (some (New Handler.Default)) World.fresh).2.1,
    rfl,
    ((LoggerFromContext_spec Context.Background none World.fresh).2.2.2.2.2.2 rfl).1,
    by simp [Init, selectHandler_multi logConfigProd World.fresh rfl (by decide)],
    ((LoggerFromContext_spec Context.Background none World.fresh).2.2.2.2.2.2 rfl).2
      logConfigProd
      (by simp [Init, selectHandler_multi logConfigProd World.fresh rfl (by decide)])⟩

/-- C4, counterexample: with output `multi`, file threshold `Error` and console
threshold `Info`, an `Info` record (at least the console threshold) logged after
`Init` is written to the console and not to the file sink. -/
theorem multi_record_console_only :
    sampleQuietFile.Output = "multi" ∧
    sampleQuietFile.FileRotation.FilePath ≠ "" ∧
    sampleQuietFile.ConsoleLevel ≤ LevelInfo ∧
    (Info "hello" [] (Init sampleQuietFile World.fresh).world).entriesAt Writer.Stderr =
      [{ encoding := Encoding.Text, source := false,
         record := { Level := 0, Message := "hello", Args := [] } }] ∧
    (Info "hello" [] (Init sampleQuietFile World.fresh).world).entriesAt
      (rotateOf sampleQuietFile) = [] := by
  refine ⟨rfl, by decide, by decide, ?_, ?_⟩ <;> rfl

/-- C4, amended: for every multi configuration with a non-empty file path and
every record, the logger returned by `Init` writes the record to the file sink
iff its severity is at least `Level`, and to the console sink iff its severity is
at least `ConsoleLevel`, each sink deciding alone.  So a severity from `Level`
up to below `ConsoleLevel` goes to the file only, a severity at least both
thresholds goes to both, and a severity from `ConsoleLevel` up to below `Level`
goes to the console only. -/
theorem Init_multi_dispatch (config : Config) (w : World)
    (hout : config.Output = "multi") (hpath : config.FileRotation.FilePath ≠ "")
    (s : Int) (msg : String) (args : List (String × String)) (w' : World) :
    (Init config w).logger = some (Init config w).world.defaultLogger ∧
    ((Init config w).world.defaultLogger.log s msg args w').trace = w'.trace ++
      (if config.Level ≤ s then
        [Effect.write (rotateOf config)
          { encoding := Encoding.JSON, source := config.AddSource,
            record := { Level := s, Message := msg, Args := args } }]
       else []) ++
      (if config.ConsoleLevel ≤ s then
        [Effect.write Writer.Stderr
          { encoding := Encoding.Text, source := config.AddSource,
            record := { Level := s, Message := msg, Args := args } }]
       else []) ∧
    (config.Level ≤ s → s < config.ConsoleLevel →
      ((Init config w).world.defaultLogger.log s msg args w').trace = w'.trace ++
        [Effect.write (rotateOf config)
          { encoding := Encoding.JSON, source := config.AddSource,
            record := { Level := s, Message := msg, Args := args } }]) ∧
    (config.ConsoleLevel ≤ s → config.Level ≤ s →
      ((Init config w).world.defaultLogger.log s msg args w').trace = w'.trace ++
        [Effect.write (rotateOf config)
          { encoding := Encoding.JSON, source := config.AddSource,
            record := { Level := s, Message := msg, Args := args } },
         Effect.write Writer.Stderr
          { encoding := Encoding.Text, source := config.AddSource,
            record := { Level := s, Message := msg, Args := args } }]) ∧
    (config.ConsoleLevel ≤ s → s < config.Level →
      ((Init config w).world.defaultLogger.log s msg args w').trace = w'.trace ++
        [Effect.write Writer.Stderr
          { encoding := Encoding.Text, source := config.AddSource,
            record := { Level := s, Message := msg, Args := args } }]) := by
  obtain ⟨_, hlog, hdef⟩ := Init_of_selected config w w _ (selectHandler_multi config w hout hpath)
  have hgen : ((Init config w).world.defaultLogger.log s msg args w').trace = w'.trace ++
        (if config.Level ≤ s then
          [Effect.write (rotateOf config)
            { encoding := Encoding.JSON, source := config.AddSource,
              record := { Level := s, Message := msg, Args := args } }]
         else []) ++
        (if config.ConsoleLevel ≤ s then
          [Effect.write Writer.Stderr
            { encoding := Encoding.Text, source := config.AddSource,
              record := { Level := s, Message := msg, Args := args } }]
         else []) := by
    rw [hdef, log_trace _ (by simp)]
    by_cases h1 : config.Level ≤ s <;> by_cases h2 : config.ConsoleLevel ≤ s <;>
      simp [Handler.members, Sink.Enabled, Sink.writeOf, h1, h2]
  refine ⟨by rw [hlog, hdef], hgen, ?_, ?_, ?_⟩
  · intro h1 h2
    rw [hgen]
    simp [h1, not_le.mpr h2]
  · intro h1 h2
    rw [hgen]
    simp [h1, h2]
  · intro h1 h2
    rw [hgen]
    simp [h1, not_le.mpr h2]

theorem Init_multi_dispatch_witness :
    logConfigProd.Output = "multi" ∧ logConfigProd.FileRotation.FilePath ≠ "" ∧
    logConfigProd.Level ≤ LevelDebug ∧ LevelDebug < logConfigProd.ConsoleLevel ∧
    ((Init logConfigProd World.fresh).world.defaultLogger.log LevelDebug "detail" []
        World.fresh).trace =
      World.fresh.trace ++
        [Effect.write (rotateOf logConfigProd)
          { encoding := Encoding.JSON, source := logConfigProd.AddSource,
            record := { Level := LevelDebug, Message := "detail", Args := [] } }] :=
  ⟨rfl, by decide, by decide, by decide,
    (Init_multi_dispatch logConfigProd World.fresh rfl (by decide) LevelDebug "detail" []
      World.fresh).2.2.1 (by decide) (by decide)⟩

/-- C5: for every configuration with output `stdout`, `stderr` or `file` with a
non-empty path that can be opened, and with format `text` or `json`, `Init`
succeeds and the logger it returns (the new default) writes a record of any
severity to the destination, as one entry in the configured format carrying the
record, iff the severity is at least `Level`; otherwise it writes nothing. -/
theorem Init_single_threshold (config : Config) (w : World)
    (hout : config.Output = "stdout" ∨ config.Output = "stderr" ∨
      (config.Output = "file" ∧ config.FileRotation.FilePath ≠ "" ∧
        w.openErr config.FileRotation.FilePath = none))
    (hfmt : config.Format = "text" ∨ config.Format = "json")
    (s : Int) (msg : String) (args : List (String × String)) (w' : World) :
    (Init config w).err = none ∧
    (Init config w).logger = some (Init config w).world.defaultLogger ∧
    ((Init config w).world.defaultLogger.log s msg args w').trace = w'.trace ++
      (if config.Level ≤ s then
        [Effect.write
          (if config.Output = "stdout" then Writer.Stdout
           else if config.Output = "stderr" then Writer.Stderr
           else Writer.File config.FileRotation.FilePath)
          { encoding := if config.Format = "json" then Encoding.JSON else Encoding.Text,
            source := config.AddSource,
            record := { Level := s, Message := msg, Args := args } }]
       else []) := by
  have hsel : ∃ w1, selectHandler config w =
      (Except.ok (Handler.Single
        { encoding := if config.Format = "json" then Encoding.JSON else Encoding.Text,
          writer := (if config.Output = "stdout" then Writer.Stdout
            else if config.Output = "stderr" then Writer.Stderr
            else Writer.File config.FileRotation.FilePath),
          opts := { AddSource := config.AddSource, Level := config.Level } }), w1) := by
    rcases hout with h1 | h2 | ⟨h3, hp, ho⟩
    · rcases hfmt with hf | hf <;>
        exact ⟨w, by simp [selectHandler, h1, hf, NewJSONHandler, NewTextHandler]⟩
    · rcases hfmt with hf | hf <;>
        exact ⟨w, by simp [selectHandler, h2, hf, NewJSONHandler, NewTextHandler]⟩
    · by_cases hex : config.FileRotation.FilePath ∈ w.files
      · rcases hfmt with hf | hf <;>
          exact ⟨_, by simp [selectHandler, h3, hp, OpenFile, ho, hex, hf, NewJSONHandler,
            NewTextHandler]; rfl⟩
      · rcases hfmt with hf | hf <;>
          exact ⟨_, by simp [selectHandler, h3, hp, OpenFile, ho, hex, hf, NewJSONHandler,
            NewTextHandler]; rfl⟩
  obtain ⟨w1, hsel⟩ := hsel
  obtain ⟨herr, hlog, hdef⟩ := Init_of_selected config w w1 _ hsel
  refine ⟨herr, by rw [hlog, hdef], ?_⟩
  rw [hdef, log_trace _ (by simp)]
  by_cases h1 : config.Level ≤ s <;>
    simp [Handler.members, Sink.Enabled, Sink.writeOf, h1]

theorem Init_single_threshold_witness :
    ((sampleConfig "stdout" "text" "").Output = "stdout" ∨
      (sampleConfig "stdout" "text" "").Output = "stderr" ∨
      ((sampleConfig "stdout" "text" "").Output = "file" ∧
        (sampleConfig "stdout" "text" "").FileRotation.FilePath ≠ "" ∧
        World.fresh.openErr (sampleConfig "stdout" "text" "").FileRotation.FilePath = none)) ∧
    ((sampleConfig "stdout" "text" "").Format = "text" ∨
      (sampleConfig "stdout" "text" "").Format = "json") ∧
    (sampleConfig "stdout" "text" "").Level = LevelInfo ∧
    ((Init (sampleConfig "stdout" "text" "") World.fresh).world.defaultLogger.log LevelDebug
        "detail" [] World.fresh).trace = [] ∧
    ((Init (sampleConfig "stdout" "text" "") World.fresh).world.defaultLogger.log LevelError
        "boom" [] World.fresh).trace =
      [Effect.write Writer.Stdout
        { encoding := Encoding.Text, source := false,
          record := { Level := LevelError, Message := "boom", Args := [] } }] :=
  ⟨Or.inl rfl, Or.inl rfl, rfl,
    (Init_single_threshold (sampleConfig "stdout" "text" "") World.fresh (Or.inl rfl)
      (Or.inl rfl) LevelDebug "detail" [] World.fresh).2.2,
    (Init_single_threshold (sampleConfig "stdout" "text" "") World.fresh (Or.inl rfl)
      (Or.inl rfl) LevelError "boom" [] World.fresh).2.2⟩

/-- C6, counterexample: from a fresh process, `Init` with the configuration of
the example followed by one `Debug` and one `Info` record leaves three entries,
not two, in the file sink (the first is the diagnostic of `Init`) and one on the
console; the example program itself, which logs the `Info` record first, leaves
three as well. -/
theorem multi_scenario_file_entries :
    ((Info "started" [] (Debug "detail" [] (Init logConfigProd World.fresh).world)).entriesAt
      (rotateOf logConfigProd)).length = 3 ∧
    ((Info "started" [] (Debug "detail" [] (Init logConfigProd World.fresh).world)).entriesAt
      (rotateOf logConfigProd)).length ≠ 2 ∧
    ((Info "started" [] (Debug "detail" [] (Init logConfigProd World.fresh).world)).entriesAt
      Writer.Stderr).length = 1 ∧
    (match Log_example_main World.fresh with
      | Except.ok w1 => (w1.entriesAt (rotateOf logConfigProd)).length
      | Except.error _ => 0) = 3 := by
  refine ⟨?_, ?_, ?_, ?_⟩
  · rfl
  · decide
  · rfl
  · rfl

/-- C6, amended: starting from an empty file sink and an empty console stream,
`Init` with output `multi`, level `Debug`, console level `Info` and file path
`log/app.log`, followed by one `Debug` record and one `Info` record through
the default logger, leaves exactly three entries in the file sink (the diagnostic of
`Init`, the `Debug` record, the `Info` record, in this order) and exactly one
entry, the `Info` record, on the console stream. -/
theorem multi_scenario_entries (config : Config) (w : World)
    (hout : config.Output = "multi") (hlevel : config.Level = LevelDebug)
    (hconsole : config.ConsoleLevel = LevelInfo)
    (hpath : config.FileRotation.FilePath = "log/app.log")
    (hfile : w.entriesAt (rotateOf config) = []) (hcons : w.entriesAt Writer.Stderr = [])
    (m1 m2 : String) (a1 a2 : List (String × String)) :
    (Info m2 a2 (Debug m1 a1 (Init config w).world)).entriesAt (rotateOf config) =
      [ { encoding := Encoding.JSON, source := config.AddSource, record := initRecord config },
        { encoding := Encoding.JSON, source := config.AddSource,
          record := { Level := LevelDebug, Message := m1, Args := a1 } },
        { encoding := Encoding.JSON, source := config.AddSource,
          record := { Level := LevelInfo, Message := m2, Args := a2 } } ] ∧
    (Info m2 a2 (Debug m1 a1 (Init config w).world)).entriesAt Writer.Stderr =
      [ { encoding := Encoding.Text, source := config.AddSource,
          record := { Level := LevelInfo, Message := m2, Args := a2 } } ] := by
  have hp : config.FileRotation.FilePath ≠ "" := by rw [hpath]; decide
  have hsel := selectHandler_multi config w hout hp
  obtain ⟨_, _, hdef⟩ := Init_of_selected config w w _ hsel
  have ht0 : (Init config w).world.trace = w.trace ++
      [Effect.write (rotateOf config)
        { encoding := Encoding.JSON, source := config.AddSource,
          record := initRecord config }] := by
    have ht := log_trace (Handler.FanoutOf
        [ { encoding := Encoding.JSON, writer := rotateOf config,
            opts := { AddSource := config.AddSource, Level := config.Level } },
          { encoding := Encoding.Text, writer := Writer.Stderr,
            opts := { AddSource := config.AddSource, Level := config.ConsoleLevel } } ])
        (by simp) LevelDebug initMessage [("config", sprintfPlusV config)]
        (SetDefault (New (Handler.FanoutOf
        [ { encoding := Encoding.JSON, writer := rotateOf config,
            opts := { AddSource := config.AddSource, Level := config.Level } },
          { encoding := Encoding.Text, writer := Writer.Stderr,
            opts := { AddSource := config.AddSource, Level := config.ConsoleLevel } } ])) w)
    simp only [Init, hsel, Debug, Default, SetDefault] at ht ⊢
    rw [ht]
    simp [Handler.members, Sink.Enabled, Sink.writeOf, hlevel, hconsole, LevelDebug, LevelInfo,
      initRecord]
  have hd1 : (Debug m1 a1 (Init config w).world).defaultLogger =
      (Init config w).world.defaultLogger := by
    simp [Debug, log_defaultLogger]
  have ht1 : (Debug m1 a1 (Init config w).world).trace = (Init config w).world.trace ++
      [Effect.write (rotateOf config)
        { encoding := Encoding.JSON, source := config.AddSource,
          record := { Level := LevelDebug, Message := m1, Args := a1 } }] := by
    simp only [Debug, Default]
    rw [hdef, log_trace _ (by simp)]
    simp [Handler.members, Sink.Enabled, Sink.writeOf, hlevel, hconsole, LevelDebug, LevelInfo]
  have ht2 : (Info m2 a2 (Debug m1 a1 (Init config w).world)).trace =
      (Debug m1 a1 (Init config w).world).trace ++
      [Effect.write (rotateOf config)
        { encoding := Encoding.JSON, source := config.AddSource,
          record := { Level := LevelInfo, Message := m2, Args := a2 } },
       Effect.write Writer.Stderr
        { encoding := Encoding.Text, source := config.AddSource,
          record := { Level := LevelInfo, Message := m2, Args := a2 } }] := by
    simp only [Info, Default]
    rw [hd1, hdef, log_trace _ (by simp)]
    simp [Handler.members, Sink.Enabled, Sink.writeOf, hlevel, hconsole, LevelDebug, LevelInfo]
  have hall : (Info m2 a2 (Debug m1 a1 (Init config w).world)).trace = w.trace ++
      [Effect.write (rotateOf config)
        { encoding := Encoding.JSON, source := config.AddSource, record := initRecord config },
       Effect.write (rotateOf config)
        { encoding := Encoding.JSON, source := config.AddSource,
          record := { Level := LevelDebug, Message := m1, Args := a1 } },
       Effect.write (rotateOf config)
        { encoding := Encoding.JSON, source := config.AddSource,
          record := { Level := LevelInfo, Message := m2, Args := a2 } },
       Effect.write Writer.Stderr
        { encoding := Encoding.Text, source := config.AddSource,
          record := { Level := LevelInfo, Message := m2, Args := a2 } }] := by
    rw [ht2, ht1, ht0]
    simp
  constructor
  · rw [entriesAt_append w _ _ _ hall, hfile]
    simp [rotateOf]
  · rw [entriesAt_append w _ _ _ hall, hcons]
    simp [rotateOf]

theorem multi_scenario_entries_witness :
    logConfigProd.Output = "multi" ∧ logConfigProd.Level = LevelDebug ∧
    logConfigProd.ConsoleLevel = LevelInfo ∧
    logConfigProd.FileRotation.FilePath = "log/app.log" ∧
    World.fresh.entriesAt (rotateOf logConfigProd) = [] ∧
    World.fresh.entriesAt Writer.Stderr = [] ∧
    (Info "started" [] (Debug "detail" [] (Init logConfigProd World.fresh).world)).entriesAt
        Writer.Stderr =
      [ { encoding := Encoding.Text, source := true,
          record := { Level := LevelInfo, Message := "started", Args := [] } } ] :=
  ⟨rfl, rfl, rfl, rfl, rfl, rfl,
    (multi_scenario_entries logConfigProd World.fresh rfl rfl rfl rfl rfl rfl
      "detail" "started" [] []).2⟩

end Logsetup
